import Mathlib

set_option maxHeartbeats 1000000

/-!
Shallow embedding of the simple-ntp SNTP client (src/sntp.rs).

Durations are modelled as a pair of seconds and sub-second nanoseconds,
mirroring std::time::Duration; machine integers are modelled as Nat or Int
with explicit wrapping or preconditions where overflow or underflow matters.
-/

/-- Model of std::time::Duration: whole seconds (u64) and sub-second
nanoseconds (u32, kept below 1_000_000_000 by the wf predicate). -/
structure Dur where
  secs : Nat
  nanos : Nat
deriving DecidableEq, Repr

/-- Invariant maintained by std::time::Duration: the nanosecond field is a
sub-second count. -/
def Dur.wf (d : Dur) : Prop := d.nanos < 1000000000

instance (d : Dur) : Decidable d.wf := by unfold Dur.wf; infer_instance

/-- Total nanoseconds held by a duration. -/
def Dur.toNanos (d : Dur) : Nat := d.secs * 1000000000 + d.nanos

/-- Total nanoseconds as an integer, used for signed arithmetic. -/
def Dur.toNanosI (d : Dur) : Int := (d.secs : Int) * 1000000000 + (d.nanos : Int)

/-- std::time::Duration addition: nanosecond fields are added and the carry
moves into the seconds field. -/
def Dur.add (a b : Dur) : Dur :=
  ⟨a.secs + b.secs + (a.nanos + b.nanos) / 1000000000, (a.nanos + b.nanos) % 1000000000⟩

/-- std::time::Duration subtraction with borrow from the seconds field.  The
source panics on underflow; here Nat subtraction truncates, so theorems that
use this operation carry a no-underflow hypothesis. -/
def Dur.sub (a b : Dur) : Dur :=
  if b.nanos ≤ a.nanos then ⟨a.secs - b.secs, a.nanos - b.nanos⟩
  else ⟨a.secs - b.secs - 1, a.nanos + 1000000000 - b.nanos⟩

/-- std::time::Duration multiplication by 2: doubled nanoseconds spill their
whole-second part into the seconds field. -/
def Dur.mul2 (a : Dur) : Dur :=
  ⟨a.secs * 2 + a.nanos * 2 / 1000000000, a.nanos * 2 % 1000000000⟩

/-- std::time::Duration division by 2: the odd second, if any, contributes
500_000_000 nanoseconds to the nanosecond field. -/
def Dur.div2 (a : Dur) : Dur :=
  ⟨a.secs / 2, a.nanos / 2 + a.secs % 2 * 500000000⟩

/-- Error taxonomy of the client (enum NtpError). -/
inductive NtpError where
  | ServiceUnavailable (msg : String)
  | BadNtpServerAddr (msg : String)
  | UnexpectedErr (msg : String)
  | TruncatedNtpMessage
  | UntrustedMessage
deriving DecidableEq, Repr

/-- const NTP_VERSION_4. -/
def NTP_VERSION_4 : Nat := 4

/-- const NTP_MODE_CLIENT. -/
def NTP_MODE_CLIENT : Nat := 3

/-- const NTP_DEFAULT_PORT. -/
def NTP_DEFAULT_PORT : String := "123"

/-- The u64 value a Nat denotes when cast with `as i64` in the source.  Inputs
below 2^63 are unchanged; larger ones wrap to negative values. -/
def i64_of_u64 (n : Nat) : Int := if n < 9223372036854775808 then (n : Int) else (n : Int) - 18446744073709551616

/-- fn clock_offset_nanos, pure part: the computation applied to the four
instants returned by fn ntp.  The seconds difference is halved after scaling
to nanoseconds, the sub-second difference is halved separately, and both
divisions truncate toward zero as i64 division does in the source. -/
def clock_offset_nanos_calc (t1 t2 t3 t4 : Dur) : Int :=
  let diff := Int.tdiv ((i64_of_u64 t2.secs - i64_of_u64 t1.secs + i64_of_u64 t3.secs - i64_of_u64 t4.secs) * 1000000000) 2
  diff + Int.tdiv ((t2.nanos : Int) - (t1.nanos : Int) + (t3.nanos : Int) - (t4.nanos : Int)) 2

/-- The exact signed nanosecond value of ((t2 - t1) + (t3 - t4)), the
numerator of the clock-offset formula stated in the spec. -/
def offset_total_nanos (t1 t2 t3 t4 : Dur) : Int :=
  (t2.toNanosI - t1.toNanosI) + (t3.toNanosI - t4.toNanosI)

/-- fn unix_timestamp, pure part: (t1 * 2 + t2 + t3 - t1 - t4) / 2 evaluated
with std::time::Duration arithmetic. -/
def unix_timestamp_calc (t1 t2 t3 t4 : Dur) : Dur :=
  Dur.div2 (Dur.sub (Dur.sub (Dur.add (Dur.add (Dur.mul2 t1) t2) t3) t1) t4)

/-- fn duration_to_ntp_timestamp: seconds shifted into the high 32 bits of a
u64 (wrapping) or-ed with u32::MAX / 1000000000 * nanos computed in u32
arithmetic. -/
def duration_to_ntp_timestamp (d : Dur) : Nat :=
  ((d.secs <<< 32) % 18446744073709551616) ||| ((4294967295 / 1000000000 * d.nanos) % 4294967296)

/-- fn ntp_timestamp_to_duration: the high 32 bits minus the 1900-to-1970
epoch offset become seconds, the low 32 bits are rescaled to nanoseconds.
The subtraction is an unchecked u64 subtraction in the source; its overflow
panic is modelled by none.  Duration::new moves a whole second in the
nanosecond argument into the seconds field. -/
def ntp_timestamp_to_duration (t : Nat) : Option Dur :=
  if t >>> 32 < 2208988800 then none
  else
    let seconds := t >>> 32 - 2208988800
    let nanos := (t &&& 4294967295) * 1000000000 / 4294967295
    some ⟨seconds + nanos / 1000000000, nanos % 1000000000⟩

lemma Dur.add_toNanos (a b : Dur) : (Dur.add a b).toNanos = a.toNanos + b.toNanos := by
  simp only [Dur.add, Dur.toNanos]; omega

lemma Dur.mul2_toNanos (a : Dur) : (Dur.mul2 a).toNanos = 2 * a.toNanos := by
  simp only [Dur.mul2, Dur.toNanos]; omega

lemma Dur.sub_toNanos (a b : Dur) (ha : a.wf) (hb : b.wf) (h : b.toNanos ≤ a.toNanos) :
    (Dur.sub a b).toNanos = a.toNanos - b.toNanos := by
  unfold Dur.sub
  split <;> simp only [Dur.toNanos, Dur.wf] at * <;> omega

lemma Dur.div2_toNanos (a : Dur) : (Dur.div2 a).toNanos = a.toNanos / 2 := by
  simp only [Dur.div2, Dur.toNanos]; omega

lemma Dur.add_wf (a b : Dur) : (Dur.add a b).wf := by
  simp only [Dur.add, Dur.wf]; omega

lemma Dur.sub_wf (a b : Dur) (ha : a.wf) : (Dur.sub a b).wf := by
  unfold Dur.sub
  split <;> simp only [Dur.wf] at * <;> omega

lemma tmod_two_cases (N : Int) : Int.tmod N 2 = -1 ∨ Int.tmod N 2 = 0 ∨ Int.tmod N 2 = 1 := by
  rcases N with m | m <;> simp [Int.tmod] <;> omega

/-- C1: the spec claims duration-to-NTP-timestamp conversion round-trips (up
to the 1/2^32 fractional resolution) while accounting for the 2208988800
second epoch offset.  Evaluating the source conversions at the duration of
2208988800 seconds and 500000000 nanoseconds shows the round trip instead
returns 0 seconds and 465661287 nanoseconds: the forward conversion never
adds the epoch offset that the backward conversion subtracts, and the
fractional part is scaled by u32 MAX / 1000000000 = 4 instead of 2^32 / 10^9. -/
theorem roundtrip_drops_epoch_offset :
    ntp_timestamp_to_duration (duration_to_ntp_timestamp ⟨2208988800, 500000000⟩) = some ⟨0, 465661287⟩ ∧
    (⟨0, 465661287⟩ : Dur) ≠ ⟨2208988800, 500000000⟩ := by
  exact ⟨by decide, by decide⟩

/-- C2 counterexample: the claim says clock_offset_nanos returns the signed
nanosecond value of ((t2 - t1) + (t3 - t4)) / 2.  At t1 = 1ns, t2 = 1s,
t3 = t4 = 0 the exact numerator is 999999999 ns, whose halved value
(truncated, as the i64 division of the source truncates) is 499999999, yet
the computation returns 500000000 because it halves the seconds part and the
nanosecond part separately. -/
theorem clock_offset_rounding_cex :
    clock_offset_nanos_calc ⟨0, 1⟩ ⟨1, 0⟩ ⟨0, 0⟩ ⟨0, 0⟩ = 500000000 ∧
    Int.tdiv (offset_total_nanos ⟨0, 1⟩ ⟨1, 0⟩ ⟨0, 0⟩ ⟨0, 0⟩) 2 = 499999999 ∧
    clock_offset_nanos_calc ⟨0, 1⟩ ⟨1, 0⟩ ⟨0, 0⟩ ⟨0, 0⟩ ≠ Int.tdiv (offset_total_nanos ⟨0, 1⟩ ⟨1, 0⟩ ⟨0, 0⟩ ⟨0, 0⟩) 2 := by
  exact ⟨by decide, by decide, by decide⟩

/-- C2 amended: for durations whose seconds fit in 32 bits (so the i64
arithmetic of the source is exact), clock_offset_nanos computes
((t2 - t1) + (t3 - t4)) / 2 with the whole-second and sub-second halves
truncated separately: twice the result differs from the exact nanosecond
numerator by at most one, and whenever that numerator is even the result is
exactly its truncated half. -/
theorem clock_offset_nanos_within_one (t1 t2 t3 t4 : Dur)
    (h1 : t1.secs < 4294967296) (h2 : t2.secs < 4294967296)
    (h3 : t3.secs < 4294967296) (h4 : t4.secs < 4294967296) :
    (2 * clock_offset_nanos_calc t1 t2 t3 t4 - offset_total_nanos t1 t2 t3 t4).natAbs ≤ 1 ∧
    (offset_total_nanos t1 t2 t3 t4 % 2 = 0 →
      clock_offset_nanos_calc t1 t2 t3 t4 = Int.tdiv (offset_total_nanos t1 t2 t3 t4) 2) := by
  simp only [clock_offset_nanos_calc, offset_total_nanos, Dur.toNanosI, i64_of_u64]
  rw [if_pos (by omega), if_pos (by omega), if_pos (by omega), if_pos (by omega)]
  have hA : ((t2.secs : Int) - (t1.secs : Int) + (t3.secs : Int) - (t4.secs : Int)) * 1000000000 =
      ((t2.secs : Int) - (t1.secs : Int) + (t3.secs : Int) - (t4.secs : Int)) * 500000000 * 2 := by ring
  rw [hA, Int.mul_tdiv_cancel _ (by norm_num)]
  have htot : ((t2.secs : Int) * 1000000000 + (t2.nanos : Int) - ((t1.secs : Int) * 1000000000 + (t1.nanos : Int))) +
      ((t3.secs : Int) * 1000000000 + (t3.nanos : Int) - ((t4.secs : Int) * 1000000000 + (t4.nanos : Int))) =
      ((t2.secs : Int) - (t1.secs : Int) + (t3.secs : Int) - (t4.secs : Int)) * 1000000000 +
      ((t2.nanos : Int) - (t1.nanos : Int) + (t3.nanos : Int) - (t4.nanos : Int)) := by ring
  have hN := Int.tdiv_add_tmod ((t2.nanos : Int) - (t1.nanos : Int) + (t3.nanos : Int) - (t4.nanos : Int)) 2
  have hNm := tmod_two_cases ((t2.nanos : Int) - (t1.nanos : Int) + (t3.nanos : Int) - (t4.nanos : Int))
  have hT := Int.tdiv_add_tmod (((t2.secs : Int) - (t1.secs : Int) + (t3.secs : Int) - (t4.secs : Int)) * 1000000000 +
      ((t2.nanos : Int) - (t1.nanos : Int) + (t3.nanos : Int) - (t4.nanos : Int))) 2
  have hTm := tmod_two_cases (((t2.secs : Int) - (t1.secs : Int) + (t3.secs : Int) - (t4.secs : Int)) * 1000000000 +
      ((t2.nanos : Int) - (t1.nanos : Int) + (t3.nanos : Int) - (t4.nanos : Int)))
  constructor
  · rcases hNm with h | h | h <;> rw [h] at hN <;> omega
  · intro hpar
    rw [htot] at hpar ⊢
    rcases hNm with h | h | h <;> rw [h] at hN <;> rcases hTm with h2 | h2 | h2 <;> rw [h2] at hT <;> omega

/-- C2 witness: on the sample exchange of the spec the computed offset is
exactly 450000000 nanoseconds. -/
theorem clock_offset_nanos_sample :
    clock_offset_nanos_calc ⟨1000, 0⟩ ⟨1000, 500000000⟩ ⟨1000, 600000000⟩ ⟨1000, 200000000⟩ = 450000000 := by
  have h := clock_offset_nanos_within_one ⟨1000, 0⟩ ⟨1000, 500000000⟩ ⟨1000, 600000000⟩ ⟨1000, 200000000⟩
    (by norm_num) (by norm_num) (by norm_num) (by norm_num)
  exact (h.2 (by decide)).trans (by decide)

/-- C3: under the no-underflow precondition t1 + t2 + t3 at least t4, the
Duration expression (t1 * 2 + t2 + t3 - t1 - t4) / 2 computed by
unix_timestamp equals (t1 + t2 + t3 - t4) / 2 at nanosecond precision. -/
theorem unix_timestamp_calc_correct (t1 t2 t3 t4 : Dur)
    (h1 : t1.wf) (h2 : t2.wf) (h3 : t3.wf) (h4 : t4.wf)
    (hle : t4.toNanos ≤ t1.toNanos + t2.toNanos + t3.toNanos) :
    (unix_timestamp_calc t1 t2 t3 t4).toNanos = (t1.toNanos + t2.toNanos + t3.toNanos - t4.toNanos) / 2 := by
  unfold unix_timestamp_calc
  have w1 : (Dur.add (Dur.add (Dur.mul2 t1) t2) t3).wf := Dur.add_wf _ _
  have e1 : (Dur.add (Dur.add (Dur.mul2 t1) t2) t3).toNanos = 2 * t1.toNanos + t2.toNanos + t3.toNanos := by
    rw [Dur.add_toNanos, Dur.add_toNanos, Dur.mul2_toNanos]
  have e2 : (Dur.sub (Dur.add (Dur.add (Dur.mul2 t1) t2) t3) t1).toNanos =
      t1.toNanos + t2.toNanos + t3.toNanos := by
    rw [Dur.sub_toNanos _ _ w1 h1 (by omega), e1]; omega
  have w2 : (Dur.sub (Dur.add (Dur.add (Dur.mul2 t1) t2) t3) t1).wf := Dur.sub_wf _ _ w1
  have e3 : (Dur.sub (Dur.sub (Dur.add (Dur.add (Dur.mul2 t1) t2) t3) t1) t4).toNanos =
      t1.toNanos + t2.toNanos + t3.toNanos - t4.toNanos := by
    rw [Dur.sub_toNanos _ _ w2 h4 (by omega), e2]
  rw [Dur.div2_toNanos, e3]

/-- C3 witness: on the sample exchange of the spec the derived absolute time
is 1000.45 seconds. -/
theorem unix_timestamp_calc_sample :
    (unix_timestamp_calc ⟨1000, 0⟩ ⟨1000, 500000000⟩ ⟨1000, 600000000⟩ ⟨1000, 200000000⟩).toNanos = 1000450000000 := by
  have h := unix_timestamp_calc_correct ⟨1000, 0⟩ ⟨1000, 500000000⟩ ⟨1000, 600000000⟩ ⟨1000, 200000000⟩
    (by decide) (by decide) (by decide) (by decide) (by decide)
  exact h.trans (by decide)

/-- Big-endian reassembly of a u32 from four bytes (u32::from_be_bytes). -/
def u32_from_be (a b c d : Nat) : Nat := ((a * 256 + b) * 256 + c) * 256 + d

/-- Big-endian reassembly of a u64 from eight bytes (u64::from_be_bytes). -/
def u64_from_be (a b c d e f g h : Nat) : Nat :=
  ((((((a * 256 + b) * 256 + c) * 256 + d) * 256 + e) * 256 + f) * 256 + g) * 256 + h

/-- The four big-endian bytes of a u32 (u32::to_be_bytes). -/
def u32_be_bytes (n : Nat) : List Nat :=
  [n / 16777216 % 256, n / 65536 % 256, n / 256 % 256, n % 256]

/-- The eight big-endian bytes of a u64 (u64::to_be_bytes). -/
def u64_be_bytes (n : Nat) : List Nat :=
  [n / 72057594037927936 % 256, n / 281474976710656 % 256, n / 1099511627776 % 256,
   n / 4294967296 % 256, n / 16777216 % 256, n / 65536 % 256, n / 256 % 256, n % 256]

/-- struct NtpMsg; the u8, u32 and u64 fields are modelled as Nat. -/
structure NtpMsg where
  leap_indicator : Nat
  version_number : Nat
  mode : Nat
  stratum : Nat
  poll : Nat
  precision : Nat
  root_delay : Nat
  root_dispersion : Nat
  reference_identifier : Nat
  reference_timestamp : Nat
  originate_timestamp : Nat
  receiver_timestamp : Nat
  transmit_timestamp : Nat
deriving DecidableEq, Repr

/-- NtpMsg::new: the all-zero message. -/
def NtpMsg.new : NtpMsg := ⟨0, 0, 0, 0, 0, 0, 0, 0, 0, 0, 0, 0, 0⟩

/-- NtpMsg::new_for_client: leap indicator 0, the given version, client mode,
the given transmit timestamp, every other field zero. -/
def NtpMsg.new_for_client (version : Nat) (transmit_timestamp : Nat) : NtpMsg :=
  { leap_indicator := 0
    version_number := version
    mode := NTP_MODE_CLIENT
    stratum := 0
    poll := 0
    precision := 0
    root_delay := 0
    root_dispersion := 0
    reference_identifier := 0
    reference_timestamp := 0
    originate_timestamp := 0
    receiver_timestamp := 0
    transmit_timestamp := transmit_timestamp }

/-- NtpMsg::marshal: the first byte packs leap indicator, version and mode
with wrapping u8 shifts, then the remaining fields follow in network byte
order, 48 bytes in total. -/
def NtpMsg.marshal (m : NtpMsg) : List Nat :=
  (((m.leap_indicator <<< 6) % 256) ||| ((m.version_number <<< 3) % 256) ||| m.mode) ::
    m.stratum :: m.poll :: m.precision ::
    (u32_be_bytes m.root_delay ++ u32_be_bytes m.root_dispersion ++
     u32_be_bytes m.reference_identifier ++ u64_be_bytes m.reference_timestamp ++
     u64_be_bytes m.originate_timestamp ++ u64_be_bytes m.receiver_timestamp ++
     u64_be_bytes m.transmit_timestamp)

/-- NtpMsg::unmarshal: requires exactly 48 bytes, otherwise the truncated
message error; on success unpacks every field per the fixed layout.  Indexing
uses getD, which coincides with the source slicing on 48-byte inputs. -/
def NtpMsg.unmarshal (data : List Nat) : Except NtpError NtpMsg :=
  if data.length ≠ 48 then Except.error NtpError.TruncatedNtpMessage
  else Except.ok {
    leap_indicator := data.getD 0 0 >>> 6
    version_number := (data.getD 0 0 >>> 3) &&& 7
    mode := data.getD 0 0 &&& 7
    stratum := data.getD 1 0
    poll := data.getD 2 0
    precision := data.getD 3 0
    root_delay := u32_from_be (data.getD 4 0) (data.getD 5 0) (data.getD 6 0) (data.getD 7 0)
    root_dispersion := u32_from_be (data.getD 8 0) (data.getD 9 0) (data.getD 10 0) (data.getD 11 0)
    reference_identifier := u32_from_be (data.getD 12 0) (data.getD 13 0) (data.getD 14 0) (data.getD 15 0)
    reference_timestamp := u64_from_be (data.getD 16 0) (data.getD 17 0) (data.getD 18 0) (data.getD 19 0)
      (data.getD 20 0) (data.getD 21 0) (data.getD 22 0) (data.getD 23 0)
    originate_timestamp := u64_from_be (data.getD 24 0) (data.getD 25 0) (data.getD 26 0) (data.getD 27 0)
      (data.getD 28 0) (data.getD 29 0) (data.getD 30 0) (data.getD 31 0)
    receiver_timestamp := u64_from_be (data.getD 32 0) (data.getD 33 0) (data.getD 34 0) (data.getD 35 0)
      (data.getD 36 0) (data.getD 37 0) (data.getD 38 0) (data.getD 39 0)
    transmit_timestamp := u64_from_be (data.getD 40 0) (data.getD 41 0) (data.getD 42 0) (data.getD 43 0)
      (data.getD 44 0) (data.getD 45 0) (data.getD 46 0) (data.getD 47 0) }

/-- C5: unmarshal fails with the truncated message error exactly on buffers
whose length is not 48, and succeeds on every 48-byte buffer. -/
theorem unmarshal_length_guard (buf : List Nat) :
    (NtpMsg.unmarshal buf = Except.error NtpError.TruncatedNtpMessage ↔ buf.length ≠ 48) ∧
    (buf.length = 48 → ∃ m, NtpMsg.unmarshal buf = Except.ok m) := by
  by_cases h : buf.length = 48 <;> simp [NtpMsg.unmarshal, h]

/-- C5 witness: a 47-byte buffer is rejected as truncated and a 48-byte
buffer decodes successfully. -/
theorem unmarshal_length_guard_cases :
    NtpMsg.unmarshal (List.replicate 47 0) = Except.error NtpError.TruncatedNtpMessage ∧
    ∃ m, NtpMsg.unmarshal (List.replicate 48 0) = Except.ok m :=
  ⟨(unmarshal_length_guard (List.replicate 47 0)).1.mpr (by decide),
   (unmarshal_length_guard (List.replicate 48 0)).2 (by decide)⟩

/-- C8: the client request built for a given transmit timestamp has leap
indicator 0, version 4, mode 3, every other field zero except the transmit
timestamp, and marshals to exactly 48 bytes whose first byte is 0x23. -/
theorem new_for_client_fields (ts : Nat) :
    (NtpMsg.new_for_client NTP_VERSION_4 ts).leap_indicator = 0 ∧
    (NtpMsg.new_for_client NTP_VERSION_4 ts).version_number = 4 ∧
    (NtpMsg.new_for_client NTP_VERSION_4 ts).mode = 3 ∧
    (NtpMsg.new_for_client NTP_VERSION_4 ts).stratum = 0 ∧
    (NtpMsg.new_for_client NTP_VERSION_4 ts).poll = 0 ∧
    (NtpMsg.new_for_client NTP_VERSION_4 ts).precision = 0 ∧
    (NtpMsg.new_for_client NTP_VERSION_4 ts).root_delay = 0 ∧
    (NtpMsg.new_for_client NTP_VERSION_4 ts).root_dispersion = 0 ∧
    (NtpMsg.new_for_client NTP_VERSION_4 ts).reference_identifier = 0 ∧
    (NtpMsg.new_for_client NTP_VERSION_4 ts).reference_timestamp = 0 ∧
    (NtpMsg.new_for_client NTP_VERSION_4 ts).originate_timestamp = 0 ∧
    (NtpMsg.new_for_client NTP_VERSION_4 ts).receiver_timestamp = 0 ∧
    (NtpMsg.new_for_client NTP_VERSION_4 ts).transmit_timestamp = ts ∧
    (NtpMsg.new_for_client NTP_VERSION_4 ts).marshal.length = 48 ∧
    (NtpMsg.new_for_client NTP_VERSION_4 ts).marshal.getD 0 0 = 35 :=
  ⟨rfl, rfl, rfl, rfl, rfl, rfl, rfl, rfl, rfl, rfl, rfl, rfl, rfl, rfl, by
    show (((0 <<< 6) % 256) ||| ((4 <<< 3) % 256) ||| 3) = 35
    decide⟩

set_option maxRecDepth 8192 in
lemma byte0_roundtrip : ∀ b, b < 256 →
    (((b >>> 6) <<< 6) % 256) ||| ((((b >>> 3) &&& 7) <<< 3) % 256) ||| (b &&& 7) = b := by decide

lemma length_destruct {α : Type} (l : List α) (n : Nat) (h : l.length = n + 1) :
    ∃ a t, l = a :: t ∧ t.length = n := by
  cases l with
  | nil => simp at h
  | cons a t => exact ⟨a, t, rfl, by simpa using h⟩

/-- C6: decoding any 48-byte buffer and re-encoding the resulting message
reproduces the original buffer byte for byte. -/
theorem marshal_unmarshal_roundtrip (buf : List Nat) (m : NtpMsg)
    (hm : NtpMsg.unmarshal buf = Except.ok m) (hb : ∀ x ∈ buf, x < 256) :
    m.marshal = buf := by
  have hl : buf.length = 48 := by
    by_contra hl
    simp [NtpMsg.unmarshal, hl] at hm
  have hstep := length_destruct buf 47 hl
  clear hl
  obtain ⟨b0, buf, rfl, hl⟩ := hstep
  have hstep := length_destruct buf 46 hl
  clear hl
  obtain ⟨b1, buf, rfl, hl⟩ := hstep
  have hstep := length_destruct buf 45 hl
  clear hl
  obtain ⟨b2, buf, rfl, hl⟩ := hstep
  have hstep := length_destruct buf 44 hl
  clear hl
  obtain ⟨b3, buf, rfl, hl⟩ := hstep
  have hstep := length_destruct buf 43 hl
  clear hl
  obtain ⟨b4, buf, rfl, hl⟩ := hstep
  have hstep := length_destruct buf 42 hl
  clear hl
  obtain ⟨b5, buf, rfl, hl⟩ := hstep
  have hstep := length_destruct buf 41 hl
  clear hl
  obtain ⟨b6, buf, rfl, hl⟩ := hstep
  have hstep := length_destruct buf 40 hl
  clear hl
  obtain ⟨b7, buf, rfl, hl⟩ := hstep
  have hstep := length_destruct buf 39 hl
  clear hl
  obtain ⟨b8, buf, rfl, hl⟩ := hstep
  have hstep := length_destruct buf 38 hl
  clear hl
  obtain ⟨b9, buf, rfl, hl⟩ := hstep
  have hstep := length_destruct buf 37 hl
  clear hl
  obtain ⟨b10, buf, rfl, hl⟩ := hstep
  have hstep := length_destruct buf 36 hl
  clear hl
  obtain ⟨b11, buf, rfl, hl⟩ := hstep
  have hstep := length_destruct buf 35 hl
  clear hl
  obtain ⟨b12, buf, rfl, hl⟩ := hstep
  have hstep := length_destruct buf 34 hl
  clear hl
  obtain ⟨b13, buf, rfl, hl⟩ := hstep
  have hstep := length_destruct buf 33 hl
  clear hl
  obtain ⟨b14, buf, rfl, hl⟩ := hstep
  have hstep := length_destruct buf 32 hl
  clear hl
  obtain ⟨b15, buf, rfl, hl⟩ := hstep
  have hstep := length_destruct buf 31 hl
  clear hl
  obtain ⟨b16, buf, rfl, hl⟩ := hstep
  have hstep := length_destruct buf 30 hl
  clear hl
  obtain ⟨b17, buf, rfl, hl⟩ := hstep
  have hstep := length_destruct buf 29 hl
  clear hl
  obtain ⟨b18, buf, rfl, hl⟩ := hstep
  have hstep := length_destruct buf 28 hl
  clear hl
  obtain ⟨b19, buf, rfl, hl⟩ := hstep
  have hstep := length_destruct buf 27 hl
  clear hl
  obtain ⟨b20, buf, rfl, hl⟩ := hstep
  have hstep := length_destruct buf 26 hl
  clear hl
  obtain ⟨b21, buf, rfl, hl⟩ := hstep
  have hstep := length_destruct buf 25 hl
  clear hl
  obtain ⟨b22, buf, rfl, hl⟩ := hstep
  have hstep := length_destruct buf 24 hl
  clear hl
  obtain ⟨b23, buf, rfl, hl⟩ := hstep
  have hstep := length_destruct buf 23 hl
  clear hl
  obtain ⟨b24, buf, rfl, hl⟩ := hstep
  have hstep := length_destruct buf 22 hl
  clear hl
  obtain ⟨b25, buf, rfl, hl⟩ := hstep
  have hstep := length_destruct buf 21 hl
  clear hl
  obtain ⟨b26, buf, rfl, hl⟩ := hstep
  have hstep := length_destruct buf 20 hl
  clear hl
  obtain ⟨b27, buf, rfl, hl⟩ := hstep
  have hstep := length_destruct buf 19 hl
  clear hl
  obtain ⟨b28, buf, rfl, hl⟩ := hstep
  have hstep := length_destruct buf 18 hl
  clear hl
  obtain ⟨b29, buf, rfl, hl⟩ := hstep
  have hstep := length_destruct buf 17 hl
  clear hl
  obtain ⟨b30, buf, rfl, hl⟩ := hstep
  have hstep := length_destruct buf 16 hl
  clear hl
  obtain ⟨b31, buf, rfl, hl⟩ := hstep
  have hstep := length_destruct buf 15 hl
  clear hl
  obtain ⟨b32, buf, rfl, hl⟩ := hstep
  have hstep := length_destruct buf 14 hl
  clear hl
  obtain ⟨b33, buf, rfl, hl⟩ := hstep
  have hstep := length_destruct buf 13 hl
  clear hl
  obtain ⟨b34, buf, rfl, hl⟩ := hstep
  have hstep := length_destruct buf 12 hl
  clear hl
  obtain ⟨b35, buf, rfl, hl⟩ := hstep
  have hstep := length_destruct buf 11 hl
  clear hl
  obtain ⟨b36, buf, rfl, hl⟩ := hstep
  have hstep := length_destruct buf 10 hl
  clear hl
  obtain ⟨b37, buf, rfl, hl⟩ := hstep
  have hstep := length_destruct buf 9 hl
  clear hl
  obtain ⟨b38, buf, rfl, hl⟩ := hstep
  have hstep := length_destruct buf 8 hl
  clear hl
  obtain ⟨b39, buf, rfl, hl⟩ := hstep
  have hstep := length_destruct buf 7 hl
  clear hl
  obtain ⟨b40, buf, rfl, hl⟩ := hstep
  have hstep := length_destruct buf 6 hl
  clear hl
  obtain ⟨b41, buf, rfl, hl⟩ := hstep
  have hstep := length_destruct buf 5 hl
  clear hl
  obtain ⟨b42, buf, rfl, hl⟩ := hstep
  have hstep := length_destruct buf 4 hl
  clear hl
  obtain ⟨b43, buf, rfl, hl⟩ := hstep
  have hstep := length_destruct buf 3 hl
  clear hl
  obtain ⟨b44, buf, rfl, hl⟩ := hstep
  have hstep := length_destruct buf 2 hl
  clear hl
  obtain ⟨b45, buf, rfl, hl⟩ := hstep
  have hstep := length_destruct buf 1 hl
  clear hl
  obtain ⟨b46, buf, rfl, hl⟩ := hstep
  have hstep := length_destruct buf 0 hl
  clear hl
  obtain ⟨b47, buf, rfl, hl⟩ := hstep
  obtain rfl : buf = [] := List.length_eq_zero.mp hl
  have hred : NtpMsg.unmarshal [b0, b1, b2, b3, b4, b5, b6, b7, b8, b9, b10, b11, b12, b13, b14, b15, b16, b17, b18, b19, b20, b21, b22, b23, b24, b25, b26, b27, b28, b29, b30, b31, b32, b33, b34, b35, b36, b37, b38, b39, b40, b41, b42, b43, b44, b45, b46, b47] =
      Except.ok ⟨b0 >>> 6, (b0 >>> 3) &&& 7, b0 &&& 7, b1, b2, b3,
        u32_from_be b4 b5 b6 b7, u32_from_be b8 b9 b10 b11, u32_from_be b12 b13 b14 b15,
        u64_from_be b16 b17 b18 b19 b20 b21 b22 b23, u64_from_be b24 b25 b26 b27 b28 b29 b30 b31,
        u64_from_be b32 b33 b34 b35 b36 b37 b38 b39, u64_from_be b40 b41 b42 b43 b44 b45 b46 b47⟩ := rfl
  rw [hred] at hm
  injection hm with hrec
  subst hrec
  have hb0 : b0 < 256 := hb b0 (by simp)
  have hb1 : b1 < 256 := hb b1 (by simp)
  have hb2 : b2 < 256 := hb b2 (by simp)
  have hb3 : b3 < 256 := hb b3 (by simp)
  have hb4 : b4 < 256 := hb b4 (by simp)
  have hb5 : b5 < 256 := hb b5 (by simp)
  have hb6 : b6 < 256 := hb b6 (by simp)
  have hb7 : b7 < 256 := hb b7 (by simp)
  have hb8 : b8 < 256 := hb b8 (by simp)
  have hb9 : b9 < 256 := hb b9 (by simp)
  have hb10 : b10 < 256 := hb b10 (by simp)
  have hb11 : b11 < 256 := hb b11 (by simp)
  have hb12 : b12 < 256 := hb b12 (by simp)
  have hb13 : b13 < 256 := hb b13 (by simp)
  have hb14 : b14 < 256 := hb b14 (by simp)
  have hb15 : b15 < 256 := hb b15 (by simp)
  have hb16 : b16 < 256 := hb b16 (by simp)
  have hb17 : b17 < 256 := hb b17 (by simp)
  have hb18 : b18 < 256 := hb b18 (by simp)
  have hb19 : b19 < 256 := hb b19 (by simp)
  have hb20 : b20 < 256 := hb b20 (by simp)
  have hb21 : b21 < 256 := hb b21 (by simp)
  have hb22 : b22 < 256 := hb b22 (by simp)
  have hb23 : b23 < 256 := hb b23 (by simp)
  have hb24 : b24 < 256 := hb b24 (by simp)
  have hb25 : b25 < 256 := hb b25 (by simp)
  have hb26 : b26 < 256 := hb b26 (by simp)
  have hb27 : b27 < 256 := hb b27 (by simp)
  have hb28 : b28 < 256 := hb b28 (by simp)
  have hb29 : b29 < 256 := hb b29 (by simp)
  have hb30 : b30 < 256 := hb b30 (by simp)
  have hb31 : b31 < 256 := hb b31 (by simp)
  have hb32 : b32 < 256 := hb b32 (by simp)
  have hb33 : b33 < 256 := hb b33 (by simp)
  have hb34 : b34 < 256 := hb b34 (by simp)
  have hb35 : b35 < 256 := hb b35 (by simp)
  have hb36 : b36 < 256 := hb b36 (by simp)
  have hb37 : b37 < 256 := hb b37 (by simp)
  have hb38 : b38 < 256 := hb b38 (by simp)
  have hb39 : b39 < 256 := hb b39 (by simp)
  have hb40 : b40 < 256 := hb b40 (by simp)
  have hb41 : b41 < 256 := hb b41 (by simp)
  have hb42 : b42 < 256 := hb b42 (by simp)
  have hb43 : b43 < 256 := hb b43 (by simp)
  have hb44 : b44 < 256 := hb b44 (by simp)
  have hb45 : b45 < 256 := hb b45 (by simp)
  have hb46 : b46 < 256 := hb b46 (by simp)
  have hb47 : b47 < 256 := hb b47 (by simp)
  simp only [NtpMsg.marshal, u32_be_bytes, u64_be_bytes, List.cons_append, List.nil_append,
    List.cons.injEq, eq_self_iff_true, and_true, true_and]
  refine ⟨?_, ?_⟩
  · exact byte0_roundtrip b0 hb0
  · simp only [u32_from_be, u64_from_be]
    omega

/-- C6 witness: the all-zero 48-byte buffer decodes to the all-zero message,
whose encoding is the buffer again. -/
theorem marshal_unmarshal_roundtrip_zero :
    NtpMsg.marshal ⟨0, 0, 0, 0, 0, 0, 0, 0, 0, 0, 0, 0, 0⟩ = List.replicate 48 0 :=
  marshal_unmarshal_roundtrip (List.replicate 48 0) ⟨0, 0, 0, 0, 0, 0, 0, 0, 0, 0, 0, 0, 0⟩
    rfl (by decide)

/-- fn ntp, pure tail: what the exchange does once the reply buffer is in
hand.  ts is the NTP-format timestamp embedded in the request at step 2,
transmit_time and receive_time are the locally captured t1 and t4, buf is
the received datagram.  The outer Option models panics: none is the panic of
ntp_timestamp_to_duration on an underflowing server timestamp. -/
def ntp_exchange_result (ts : Nat) (transmit_time receive_time : Dur) (buf : List Nat) :
    Option (Except NtpError (Dur × Dur × Dur × Dur)) :=
  match NtpMsg.unmarshal buf with
  | Except.error e => some (Except.error e)
  | Except.ok server_msg =>
    if server_msg.originate_timestamp ≠ ts then some (Except.error NtpError.UntrustedMessage)
    else
      match ntp_timestamp_to_duration server_msg.receiver_timestamp,
            ntp_timestamp_to_duration server_msg.transmit_timestamp with
      | some t2, some t3 => some (Except.ok (transmit_time, t2, t3, receive_time))
      | _, _ => none

/-- C4: once the reply decodes, the exchange returns the untrusted message
error exactly when the originate timestamp of the reply differs from the
timestamp embedded in the request; on an exact echo that error is never
produced. -/
theorem originate_echo_guard (ts : Nat) (d1 d4 : Dur) (buf : List Nat) (m : NtpMsg)
    (hm : NtpMsg.unmarshal buf = Except.ok m) :
    (m.originate_timestamp ≠ ts →
      ntp_exchange_result ts d1 d4 buf = some (Except.error NtpError.UntrustedMessage)) ∧
    (m.originate_timestamp = ts →
      ntp_exchange_result ts d1 d4 buf ≠ some (Except.error NtpError.UntrustedMessage)) := by
  unfold ntp_exchange_result
  rw [hm]
  constructor
  · intro hne
    simp [hne]
  · intro heq
    rcases hc1 : ntp_timestamp_to_duration m.receiver_timestamp with _ | t2 <;>
      rcases hc2 : ntp_timestamp_to_duration m.transmit_timestamp with _ | t3 <;>
      simp [heq, hc1, hc2]

/-- C4 witness: a decoded reply with originate timestamp 0 against a request
timestamp of 5 is rejected as untrusted. -/
theorem originate_echo_guard_rejects :
    ntp_exchange_result 5 ⟨0, 0⟩ ⟨0, 0⟩ (List.replicate 48 0) =
      some (Except.error NtpError.UntrustedMessage) :=
  (originate_echo_guard 5 ⟨0, 0⟩ ⟨0, 0⟩ (List.replicate 48 0)
    ⟨0, 0, 0, 0, 0, 0, 0, 0, 0, 0, 0, 0, 0⟩ rfl).1 (by decide)

lemma ntp_ts_to_dur_none_iff (t : Nat) :
    ntp_timestamp_to_duration t = none ↔ t >>> 32 < 2208988800 := by
  unfold ntp_timestamp_to_duration
  split <;> simp_all

/-- C7: ntp_timestamp_to_duration is panic free exactly when the high 32
bits of the timestamp reach the 1900-to-1970 epoch offset, and a decoded
reply that passes the originate echo check but carries a receive or transmit
timestamp below that bound makes the exchange panic in its step 9
conversions. -/
theorem ntp_timestamp_underflow_guard :
    (∀ t : Nat, ntp_timestamp_to_duration t = none ↔ t >>> 32 < 2208988800) ∧
    (∀ ts d1 d4 buf m, NtpMsg.unmarshal buf = Except.ok m → m.originate_timestamp = ts →
      m.receiver_timestamp >>> 32 < 2208988800 ∨ m.transmit_timestamp >>> 32 < 2208988800 →
      ntp_exchange_result ts d1 d4 buf = none) := by
  refine ⟨fun t => ntp_ts_to_dur_none_iff t, ?_⟩
  intro ts d1 d4 buf m hm heq hlt
  unfold ntp_exchange_result
  rw [hm]
  rcases hc1 : ntp_timestamp_to_duration m.receiver_timestamp with _ | t2
  · rcases hc2 : ntp_timestamp_to_duration m.transmit_timestamp with _ | t3 <;>
      simp [heq, hc1, hc2]
  · rcases hc2 : ntp_timestamp_to_duration m.transmit_timestamp with _ | t3
    · simp [heq, hc1, hc2]
    · exfalso
      rcases hlt with h | h
      · rw [(ntp_ts_to_dur_none_iff _).mpr h] at hc1
        exact Option.noConfusion hc1
      · rw [(ntp_ts_to_dur_none_iff _).mpr h] at hc2
        exact Option.noConfusion hc2

/-- C7 witness: the zero timestamp underflows, and a reply carrying zero
receive and transmit timestamps makes the exchange panic after a successful
echo check. -/
theorem ntp_timestamp_underflow_zero :
    ntp_timestamp_to_duration 0 = none ∧
    ntp_exchange_result 0 ⟨0, 0⟩ ⟨0, 0⟩ (List.replicate 48 0) = none :=
  ⟨(ntp_timestamp_underflow_guard.1 0).mpr (by decide),
   ntp_timestamp_underflow_guard.2 0 ⟨0, 0⟩ ⟨0, 0⟩ (List.replicate 48 0)
     ⟨0, 0, 0, 0, 0, 0, 0, 0, 0, 0, 0, 0, 0⟩ rfl rfl (Or.inl (by decide))⟩

/-- fn getaddr: append the default port when the address carries none.  The
colon test of the source (String contains) is modelled on the character list
of the string, which is its semantics. -/
def getaddr (svr : String) : String :=
  if svr.data.contains ':' then svr else svr ++ ":" ++ NTP_DEFAULT_PORT

/-- fn make_socket with the outcomes of the four socket calls (bind, connect,
set_write_timeout, set_read_timeout) supplied as oracle parameters, each an
io::Result modelled as Except with the error message. -/
def make_socket_model (bindRes connectRes setWriteRes setReadRes : Except String Unit) :
    Except NtpError Unit :=
  match bindRes with
  | Except.error e => Except.error (NtpError.ServiceUnavailable e)
  | Except.ok _ =>
    match connectRes with
    | Except.error e => Except.error (NtpError.UnexpectedErr e)
    | Except.ok _ =>
      match setWriteRes with
      | Except.error e => Except.error (NtpError.UnexpectedErr e)
      | Except.ok _ =>
        match setReadRes with
        | Except.error e => Except.error (NtpError.UnexpectedErr e)
        | Except.ok _ => Except.ok ()

/-- fn send_full with the outcome of socket.send supplied as an oracle. -/
def send_full_model (sendRes : Except String Nat) : Except NtpError Unit :=
  match sendRes with
  | Except.error e => Except.error (NtpError.ServiceUnavailable e)
  | Except.ok _ => Except.ok ()

/-- fn recv_full with the outcome of socket.recv supplied as an oracle. -/
def recv_full_model (recvRes : Except String Nat) : Except NtpError Nat :=
  match recvRes with
  | Except.error e => Except.error (NtpError.ServiceUnavailable e)
  | Except.ok n => Except.ok n

/-- C9: make_socket maps a bind failure to the service unavailable error and
never produces that error otherwise, maps connect and timeout configuration
failures to the unexpected error, and no operation of the client ever
produces the bad server address error kind. -/
theorem error_taxonomy :
    (∀ e c w r, make_socket_model (Except.error e) c w r =
      Except.error (NtpError.ServiceUnavailable e)) ∧
    (∀ c w r s, make_socket_model (Except.ok ()) c w r ≠
      Except.error (NtpError.ServiceUnavailable s)) ∧
    (∀ e w r, make_socket_model (Except.ok ()) (Except.error e) w r =
      Except.error (NtpError.UnexpectedErr e)) ∧
    (∀ e r, make_socket_model (Except.ok ()) (Except.ok ()) (Except.error e) r =
      Except.error (NtpError.UnexpectedErr e)) ∧
    (∀ e, make_socket_model (Except.ok ()) (Except.ok ()) (Except.ok ()) (Except.error e) =
      Except.error (NtpError.UnexpectedErr e)) ∧
    (∀ b c w r s, make_socket_model b c w r ≠ Except.error (NtpError.BadNtpServerAddr s)) ∧
    (∀ sr s, send_full_model sr ≠ Except.error (NtpError.BadNtpServerAddr s)) ∧
    (∀ rr s, recv_full_model rr ≠ Except.error (NtpError.BadNtpServerAddr s)) ∧
    (∀ ts d1 d4 buf s, ntp_exchange_result ts d1 d4 buf ≠
      some (Except.error (NtpError.BadNtpServerAddr s))) := by
  refine ⟨fun e c w r => rfl, ?_, fun e w r => rfl, fun e r => rfl, fun e => rfl, ?_, ?_, ?_, ?_⟩
  · intro c w r s
    rcases c with e | u <;> rcases w with e2 | u2 <;> rcases r with e3 | u3 <;> simp [make_socket_model]
  · intro b c w r s
    rcases b with e | u <;> rcases c with e1 | u1 <;> rcases w with e2 | u2 <;>
      rcases r with e3 | u3 <;> simp [make_socket_model]
  · intro sr s
    rcases sr with e | n <;> simp [send_full_model]
  · intro rr s
    rcases rr with e | n <;> simp [recv_full_model]
  · intro ts d1 d4 buf s
    unfold ntp_exchange_result
    rcases hu : NtpMsg.unmarshal buf with e | m
    · have : e = NtpError.TruncatedNtpMessage := by
        unfold NtpMsg.unmarshal at hu
        split at hu
        · exact (Except.error.inj hu).symm
        · exact Except.noConfusion hu
      simp [this]
    · by_cases heq : m.originate_timestamp = ts
      · rcases hc1 : ntp_timestamp_to_duration m.receiver_timestamp with _ | t2 <;>
          rcases hc2 : ntp_timestamp_to_duration m.transmit_timestamp with _ | t3 <;>
          simp [heq, hc1, hc2]
      · simp [heq]

/-- C9 witness: a failed bind surfaces as service unavailable and a failed
connect as the unexpected error. -/
theorem error_taxonomy_samples :
    make_socket_model (Except.error "bind failed") (Except.ok ()) (Except.ok ()) (Except.ok ()) =
      Except.error (NtpError.ServiceUnavailable "bind failed") ∧
    make_socket_model (Except.ok ()) (Except.error "resolve failed") (Except.ok ()) (Except.ok ()) =
      Except.error (NtpError.UnexpectedErr "resolve failed") :=
  ⟨error_taxonomy.1 "bind failed" (Except.ok ()) (Except.ok ()) (Except.ok ()),
   error_taxonomy.2.2.1 "resolve failed" (Except.ok ()) (Except.ok ())⟩

/-- C10: the association address is the server string itself when it already
contains a colon, and the string with the default port 123 appended when it
does not. -/
theorem getaddr_port_default (s : String) :
    (s.data.contains ':' = true → getaddr s = s) ∧
    (s.data.contains ':' = false → getaddr s = s ++ ":123") := by
  constructor
  · intro h
    unfold getaddr
    rw [h]
    simp
  · intro h
    simp only [getaddr, h, Bool.false_eq_true, if_false]
    apply String.ext
    simp [String.data_append, NTP_DEFAULT_PORT]

/-- C10 witness: a bare host gets the default port appended and a host with
an explicit port is used unchanged. -/
theorem getaddr_port_default_samples :
    getaddr "ntp.aliyun.com" = "ntp.aliyun.com:123" ∧
    getaddr "10.0.0.1:1123" = "10.0.0.1:1123" :=
  ⟨(getaddr_port_default "ntp.aliyun.com").2 (by decide),
   (getaddr_port_default "10.0.0.1:1123").1 (by decide)⟩
